import Mathlib

/-!
Shallow embedding of the db-client repository (src/DbError.ts and
src/MySqlDatabase.ts) at the JavaScript runtime level.

Modelling conventions:
* A row returned by the MySQL driver is modelled by `Row`: the two fields
  that `MySqlDatabase` ever reads (`err_code`, `err_context`) plus an opaque
  `payload` standing for all other columns.  A field whose runtime value is
  `undefined` (absent) is `none`.
* `DbErrorCode` is a TypeScript string enum; at runtime it is an object
  mapping member names to string values, modelled by `DbErrorCodeMembers`.
  Accessing a member that does not exist (`DbErrorCode.NoError`) yields
  `undefined`, modelled by a failed lookup.
* A promise settles at most once: the first `resolve`/`reject` wins and the
  callback body has no further observable effect, so each result-processing
  callback is modelled by a function returning a single `Settle` value, the
  first settlement the source code performs.  A raised TypeError inside the
  `try` block (e.g. reading `err_code` of `undefined`) is caught by the
  source and rejected raw, modelled by `RejectValue.thrown`.
* Rejecting with the raw driver error object (`reject(error)`) is modelled
  by `RejectValue.driverError`.
-/

/-- Runtime model of the `MysqlError` object handed to query callbacks. -/
structure MysqlErr where
  message : String
deriving DecidableEq, Repr

/-- Runtime model of a driver row: the fields read by `MySqlDatabase`
(`err_code`, `err_context`; `none` = the field is `undefined`) plus an
opaque `payload` standing for every other column of the row. -/
structure Row where
  err_code : Option String := none
  err_context : Option String := none
  payload : String := ""
deriving DecidableEq, Repr

/-- The member list of the TypeScript string enum `DbErrorCode`
(src/DbError.ts): member name paired with its string value. -/
def DbErrorCodeMembers : List (String × String) :=
  [("ItemNotFound", "ITEM_NOT_FOUND"),
   ("DuplicateItemExists", "DUPLICATE_ITEM_EXISTS"),
   ("QuotaExceeded", "QUOTA_EXCEEDED"),
   ("MaximumSizeExceeded", "MAXIMUM_SIZE_EXCEEDED"),
   ("ItemTooLarge", "ITEM_TOO_LARGE"),
   ("ItemIsExpired", "ITEM_IS_EXPIRED"),
   ("ItemAlreadyProcessed", "ITEM_ALREADY_PROCESSED"),
   ("InvalidFieldValue", "INVALID_FIELD_VALUE"),
   ("NotAuthorized", "NOT_AUTHORIZED"),
   ("UnexpectedError", "UNEXPECTED_ERROR")]

def DbErrorCode.ItemNotFound : String := "ITEM_NOT_FOUND"

def DbErrorCode.DuplicateItemExists : String := "DUPLICATE_ITEM_EXISTS"

def DbErrorCode.QuotaExceeded : String := "QUOTA_EXCEEDED"

def DbErrorCode.MaximumSizeExceeded : String := "MAXIMUM_SIZE_EXCEEDED"

def DbErrorCode.ItemTooLarge : String := "ITEM_TOO_LARGE"

def DbErrorCode.ItemIsExpired : String := "ITEM_IS_EXPIRED"

def DbErrorCode.ItemAlreadyProcessed : String := "ITEM_ALREADY_PROCESSED"

def DbErrorCode.InvalidFieldValue : String := "INVALID_FIELD_VALUE"

def DbErrorCode.NotAuthorized : String := "NOT_AUTHORIZED"

def DbErrorCode.UnexpectedError : String := "UNEXPECTED_ERROR"

/-- Runtime value of the property access `DbErrorCode.NoError` in
src/MySqlDatabase.ts: the enum has no `NoError` member, so the access
yields `undefined` (`none`). -/
def DbErrorCode.NoError : Option String :=
  DbErrorCodeMembers.lookup "NoError"

/-- The ten string values of the `DbErrorCode` enum (the closed error-kind
vocabulary of the spec). -/
def dbErrorKindValues : List String := DbErrorCodeMembers.map Prod.snd

/-- Runtime model of the `DbError` class (src/DbError.ts).  `errorCode` is
the raw value passed to the constructor (which can be `undefined` at
runtime), `context` is `none` when the constructor's optional third
argument is omitted or `undefined`. -/
structure DbError where
  errorCode : Option String
  message : String
  context : Option String := none
deriving DecidableEq, Repr

/-- String interpolation of a possibly-`undefined` runtime string value
(`${x}` prints `undefined` when `x` is `undefined`). -/
def jsShow : Option String → String
  | none => "undefined"
  | some s => s

/-- `createDbError` (src/MySqlDatabase.ts lines 304-350): switch on the
outcome row's `err_code` choosing a fixed message, with the
`UnexpectedError` case falling through to the default; the constructed
`DbError` carries the row's raw `err_code` and `err_context` unchanged. -/
def createDbError (response : Row) : DbError :=
  let errorMessage : String :=
    if response.err_code = some DbErrorCode.ItemNotFound then
      "Item not found."
    else if response.err_code = some DbErrorCode.DuplicateItemExists then
      "Duplicate item already exists."
    else if response.err_code = some DbErrorCode.QuotaExceeded then
      "Quote has been exceeded."
    else if response.err_code = some DbErrorCode.MaximumSizeExceeded then
      "The maximum size has been exceeded."
    else if response.err_code = some DbErrorCode.ItemTooLarge then
      "Item is too large."
    else if response.err_code = some DbErrorCode.ItemIsExpired then
      "Item is expired."
    else if response.err_code = some DbErrorCode.ItemAlreadyProcessed then
      "Item has already been processed."
    else if response.err_code = some DbErrorCode.InvalidFieldValue then
      "Invalid field value."
    else if response.err_code = some DbErrorCode.NotAuthorized then
      "Not authorized"
    else
      "An unexpected error occurred (Error Code: " ++
        jsShow response.err_code ++ ")."
  { errorCode := response.err_code
    message := errorMessage
    context := response.err_context }

/-- The `DbError` built on the empty-result path of `callSelectOneProc`
(line 182): `new DbError(DbErrorCode.ItemNotFound, 'Item not found.')`,
context omitted. -/
def itemNotFoundError : DbError :=
  { errorCode := some DbErrorCode.ItemNotFound
    message := "Item not found."
    context := none }

/-- The value a promise rejects with. -/
inductive RejectValue where
  /-- `reject(this.createDbError(result))` or `reject(new DbError(...))`. -/
  | dbError (e : DbError)
  /-- `reject(error)` with the raw driver error in the callback's first
  argument. -/
  | driverError (e : MysqlErr)
  /-- `reject(error)` in a catch block with a raised TypeError. -/
  | thrown (msg : String)
deriving DecidableEq, Repr

/-- The unique settlement of a promise: a promise settles at most once, the
first `resolve`/`reject` wins. -/
inductive Settle (α : Type) where
  | resolved (v : α)
  | rejected (e : RejectValue)
deriving DecidableEq, Repr

/-- `true` iff the settlement is a rejection carrying a `DbError`. -/
def isDbErrorReject {α : Type} : Settle α → Bool
  | .rejected (.dbError _) => true
  | _ => false

/-- Result-processing callback of `callSelectManyProc`
(src/MySqlDatabase.ts lines 104-135).  `error` is the driver error argument
(`none` = `null`), `results` the list of result sets.  On transport error
the raw driver error is rejected; otherwise the first result set's first
row is read (a TypeError when absent is caught and rejected raw), any
defined `err_code` rejects `createDbError`, and otherwise the promise
resolves with `results[1]` (possibly `undefined`). -/
def callSelectManyProcCb (error : Option MysqlErr) (results : List (List Row)) :
    Settle (Option (List Row)) :=
  match error with
  | some e => .rejected (.driverError e)
  | none =>
    match results[0]? with
    | none => .rejected (.thrown "TypeError: results[0] is undefined")
    | some set0 =>
      match set0[0]? with
      | none => .rejected (.thrown "TypeError: cannot read err_code of undefined")
      | some result =>
        if result.err_code ≠ DbErrorCode.NoError then
          .rejected (.dbError (createDbError result))
        else
          .resolved results[1]?

/-- Result-processing callback of `callSelectOneProc`
(src/MySqlDatabase.ts lines 156-194).  Same outcome-row check as
`callSelectManyProc`; then `results[1]` is inspected: `undefined` raises a
caught TypeError, an empty set rejects `itemNotFoundError`, and otherwise
the first record is resolved. -/
def callSelectOneProcCb (error : Option MysqlErr) (results : List (List Row)) :
    Settle Row :=
  match error with
  | some e => .rejected (.driverError e)
  | none =>
    match results[0]? with
    | none => .rejected (.thrown "TypeError: results[0] is undefined")
    | some set0 =>
      match set0[0]? with
      | none => .rejected (.thrown "TypeError: cannot read err_code of undefined")
      | some result =>
        if result.err_code ≠ DbErrorCode.NoError then
          .rejected (.dbError (createDbError result))
        else
          match results[1]? with
          | none => .rejected (.thrown "TypeError: cannot read length of undefined")
          | some dataResult =>
            match dataResult with
            | [] => .rejected (.dbError itemNotFoundError)
            | r :: _ => .resolved r

/-- Result-processing callback of `callChangeProc`
(src/MySqlDatabase.ts lines 216-245).  Same outcome-row check; on the
success path the promise resolves with `results[1][0]` (`undefined`, i.e.
`none`, when the second result set is empty; a TypeError when `results[1]`
itself is `undefined` is caught and rejected raw). -/
def callChangeProcCb (error : Option MysqlErr) (results : List (List Row)) :
    Settle (Option Row) :=
  match error with
  | some e => .rejected (.driverError e)
  | none =>
    match results[0]? with
    | none => .rejected (.thrown "TypeError: results[0] is undefined")
    | some set0 =>
      match set0[0]? with
      | none => .rejected (.thrown "TypeError: cannot read err_code of undefined")
      | some result =>
        if result.err_code ≠ DbErrorCode.NoError then
          .rejected (.dbError (createDbError result))
        else
          match results[1]? with
          | none => .rejected (.thrown "TypeError: results[1] is undefined")
          | some set1 => .resolved set1[0]?

/-- JavaScript `s.repeat(n)`: `n` concatenated copies of `s`. -/
def strRepeat (s : String) : Nat → String
  | 0 => ""
  | n + 1 => s ++ strRepeat s n

/-- The placeholder text built by `invokeStoredProc` (line 264):
`parameters.length ? '?' + ',?'.repeat(parameters.length - 1) : ''`. -/
def placeholders (n : Nat) : String :=
  if n ≠ 0 then "?" ++ strRepeat ",?" (n - 1) else ""

/-- `invokeStoredProc` (src/MySqlDatabase.ts lines 259-272): the statement
text handed to `conn.query` and, out-of-band, the untouched parameter
list passed as the second argument. -/
def invokeStoredProc {α : Type} (procName : String) (parameters : List α) :
    String × List α :=
  ("call " ++ procName ++ "(" ++ placeholders parameters.length ++ ")",
   parameters)

/-- Number of positional placeholders (`?` characters) in a piece of
statement text. -/
def qCount (s : String) : Nat := s.data.count '?'

/-- Runtime values stored in a JSON row object handed to
`convertBitFields`.  `arr` models the sequence-shaped values (on which
`lastIndexOf` is a function); `num`, `boolVal` and `nullVal` model
non-sequence values (on which `x.lastIndexOf(1)` raises a TypeError). -/
inductive JsonVal where
  | num (n : Int)
  | boolVal (b : Bool)
  | arr (xs : List Int)
  | nullVal
deriving DecidableEq, Repr

/-- A JavaScript object with string keys, as an association list. -/
def JsonObj : Type := List (String × JsonVal)

/-- Property read `obj[k]`: `none` is `undefined`. -/
def lookupField : JsonObj → String → Option JsonVal
  | [], _ => none
  | (k, v) :: rest, key => if k = key then some v else lookupField rest key

/-- Property write `obj[k] = v`: replaces the existing entry, or appends a
new one when the key is absent. -/
def setField : JsonObj → String → JsonVal → JsonObj
  | [], key, val => [(key, val)]
  | (k, v) :: rest, key, val =>
    if k = key then (key, val) :: rest else (k, v) :: setField rest key val

/-- Loop body of `convertBitFields` (lines 291-294): for each listed field
name, read `jsonObject[bitField]` from the ORIGINAL object; a sequence
value is replaced in the copy by `lastIndexOf(1) !== -1` (i.e. whether `1`
occurs), any other value (including `undefined`) raises a TypeError. -/
def convertBitFieldsAux (jsonObject : JsonObj) :
    List String → JsonObj → Except String JsonObj
  | [], newObject => .ok newObject
  | bitField :: rest, newObject =>
    match lookupField jsonObject bitField with
    | some (.arr xs) =>
      convertBitFieldsAux jsonObject rest
        (setField newObject bitField (.boolVal (xs.contains 1)))
    | some _ =>
      .error "TypeError: jsonObject[bitField].lastIndexOf is not a function"
    | none =>
      .error "TypeError: cannot read lastIndexOf of undefined"

/-- `convertBitFields` (src/MySqlDatabase.ts lines 283-297): spread-copy
the object, then run the conversion loop over the named bit fields. -/
def convertBitFields (jsonObject : JsonObj) (bitFields : List String) :
    Except String JsonObj :=
  convertBitFieldsAux jsonObject bitFields jsonObject

/-- Synchronous/asynchronous events of one call through `query`,
`callSelectManyProc`, `callSelectOneProc` or `callChangeProc`. -/
inductive DbEvent where
  /-- `this.connect()` — a connection is acquired for the call. -/
  | connect
  /-- `this.conn.query(...)` — the query is issued. -/
  | issueQuery
  /-- `this.disconnect()` — the connection is released. -/
  | disconnect
  /-- the driver's query callback fires (asynchronously, later). -/
  | callbackFired
deriving DecidableEq, BEq, Repr

/-- Event order of one `query` call (lines 73-89): `connect()`, the query
is issued inside the promise executor, `disconnect()` runs synchronously
right after, and the callback fires only later. -/
def queryTrace : List DbEvent :=
  [.connect, .issueQuery, .disconnect, .callbackFired]

/-- Event order of one `callSelectManyProc` call (lines 97-141). -/
def callSelectManyProcTrace : List DbEvent :=
  [.connect, .issueQuery, .disconnect, .callbackFired]

/-- Event order of one `callSelectOneProc` call (lines 149-200). -/
def callSelectOneProcTrace : List DbEvent :=
  [.connect, .issueQuery, .disconnect, .callbackFired]

/-- Event order of one `callChangeProc` call (lines 212-250). -/
def callChangeProcTrace : List DbEvent :=
  [.connect, .issueQuery, .disconnect, .callbackFired]

/-! ### Helper lemmas -/

/-- The property access `DbErrorCode.NoError` evaluates to `undefined`. -/
theorem noError_eq_none : DbErrorCode.NoError = none := by decide

theorem lookupField_setField_ne (a : JsonObj) (f k : String) (v : JsonVal)
    (h : k ≠ f) : lookupField (setField a f v) k = lookupField a k := by
  induction a with
  | nil =>
    show lookupField [(f, v)] k = lookupField [] k
    simp only [lookupField]
    exact if_neg fun h' => h h'.symm
  | cons p rest ih =>
    obtain ⟨pk, pv⟩ := p
    by_cases hp : pk = f
    · subst hp
      simp only [setField, if_pos rfl, lookupField]
      rw [if_neg fun h' => h h'.symm, if_neg fun h' => h h'.symm]
    · simp only [setField, if_neg hp, lookupField]
      by_cases hk : pk = k
      · rw [if_pos hk, if_pos hk]
      · rw [if_neg hk, if_neg hk]
        exact ih

theorem lookupField_setField_eq (a : JsonObj) (f : String) (v : JsonVal) :
    lookupField (setField a f v) f = some v := by
  induction a with
  | nil => simp [setField, lookupField]
  | cons p rest ih =>
    obtain ⟨pk, pv⟩ := p
    by_cases hp : pk = f
    · subst hp; simp [setField, lookupField]
    · simp only [setField, if_neg hp, lookupField]
      exact ih

theorem convertBitFieldsAux_ok (jsonObject : JsonObj) :
    ∀ (bitFields : List String),
      (∀ f ∈ bitFields, ∃ xs, lookupField jsonObject f = some (JsonVal.arr xs)) →
      ∀ (acc : JsonObj),
        ∃ acc', convertBitFieldsAux jsonObject bitFields acc = .ok acc' ∧
          (∀ k, k ∉ bitFields → lookupField acc' k = lookupField acc k) ∧
          (∀ k xs, k ∈ bitFields →
            lookupField jsonObject k = some (JsonVal.arr xs) →
            lookupField acc' k = some (JsonVal.boolVal (xs.contains 1))) := by
  intro bitFields
  induction bitFields with
  | nil =>
    intro _ acc
    exact ⟨acc, rfl, fun _ _ => rfl, fun k xs hk => absurd hk (List.not_mem_nil k)⟩
  | cons f rest ih =>
    intro h acc
    obtain ⟨xs₀, hxs₀⟩ := h f (List.mem_cons_self f rest)
    obtain ⟨acc', hrun, hout, hin⟩ :=
      ih (fun g hg => h g (List.mem_cons_of_mem f hg))
        (setField acc f (JsonVal.boolVal (xs₀.contains 1)))
    refine ⟨acc', ?_, ?_, ?_⟩
    · simp only [convertBitFieldsAux, hxs₀]
      exact hrun
    · intro k hk
      rw [List.mem_cons] at hk
      push_neg at hk
      rw [hout k hk.2, lookupField_setField_ne acc f k _ hk.1]
    · intro k xs hk hlk
      by_cases hr : k ∈ rest
      · exact hin k xs hr hlk
      · have hkf : k = f := by
          rcases List.mem_cons.mp hk with h1 | h2
          · exact h1
          · exact absurd h2 hr
        subst hkf
        have hxx : xs₀ = xs := by
          rw [hxs₀] at hlk
          simpa using hlk
        subst hxx
        rw [hout k hr, lookupField_setField_eq]

theorem convertBitFieldsAux_err (jsonObject : JsonObj) :
    ∀ (bitFields : List String) (acc : JsonObj) (f : String),
      f ∈ bitFields →
      (∀ xs, lookupField jsonObject f ≠ some (JsonVal.arr xs)) →
      ∃ msg, convertBitFieldsAux jsonObject bitFields acc = .error msg := by
  intro bitFields
  induction bitFields with
  | nil => intro _ f hf _; exact absurd hf (List.not_mem_nil f)
  | cons g rest ih =>
    intro acc f hf hbad
    rcases List.mem_cons.mp hf with hfg | hfr
    · subst hfg
      match hl : lookupField jsonObject f with
      | some (JsonVal.arr xs) => exact absurd hl (hbad xs)
      | some (JsonVal.num n) =>
        exact ⟨"TypeError: jsonObject[bitField].lastIndexOf is not a function",
          by simp only [convertBitFieldsAux, hl]⟩
      | some (JsonVal.boolVal b) =>
        exact ⟨"TypeError: jsonObject[bitField].lastIndexOf is not a function",
          by simp only [convertBitFieldsAux, hl]⟩
      | some JsonVal.nullVal =>
        exact ⟨"TypeError: jsonObject[bitField].lastIndexOf is not a function",
          by simp only [convertBitFieldsAux, hl]⟩
      | none =>
        exact ⟨"TypeError: cannot read lastIndexOf of undefined",
          by simp only [convertBitFieldsAux, hl]⟩
    · match hl : lookupField jsonObject g with
      | some (JsonVal.arr xs) =>
        obtain ⟨msg, hmsg⟩ :=
          ih (setField acc g (JsonVal.boolVal (xs.contains 1))) f hfr hbad
        refine ⟨msg, ?_⟩
        simp only [convertBitFieldsAux, hl]
        exact hmsg
      | some (JsonVal.num n) =>
        exact ⟨"TypeError: jsonObject[bitField].lastIndexOf is not a function",
          by simp only [convertBitFieldsAux, hl]⟩
      | some (JsonVal.boolVal b) =>
        exact ⟨"TypeError: jsonObject[bitField].lastIndexOf is not a function",
          by simp only [convertBitFieldsAux, hl]⟩
      | some JsonVal.nullVal =>
        exact ⟨"TypeError: jsonObject[bitField].lastIndexOf is not a function",
          by simp only [convertBitFieldsAux, hl]⟩
      | none =>
        exact ⟨"TypeError: cannot read lastIndexOf of undefined",
          by simp only [convertBitFieldsAux, hl]⟩

theorem qCount_append (s t : String) : qCount (s ++ t) = qCount s + qCount t := by
  simp [qCount, String.data_append, List.count_append]

theorem qCount_strRepeat (n : Nat) : qCount (strRepeat ",?" n) = n := by
  induction n with
  | zero => rfl
  | succ m ih =>
    rw [strRepeat, qCount_append, ih]
    have h1 : qCount ",?" = 1 := by decide
    omega

theorem qCount_placeholders (n : Nat) : qCount (placeholders n) = n := by
  cases n with
  | zero => rfl
  | succ m =>
    have hne : m + 1 ≠ 0 := Nat.succ_ne_zero m
    rw [placeholders, if_pos hne, qCount_append, qCount_strRepeat]
    have h1 : qCount "?" = 1 := by decide
    omega

theorem append_left_ne_empty (s t : String) (hs : s ≠ "") : s ++ t ≠ "" := by
  intro h
  apply hs
  have hd := congrArg String.data h
  rw [String.data_append] at hd
  have h2 : s.data = [] := (List.append_eq_nil.mp hd).1
  cases s
  cases t
  simp_all

/-- The message computed by `createDbError`'s switch, as a function of the
row's `err_code`. -/
theorem createDbError_message (response : Row) :
    (createDbError response).message =
      if response.err_code = some DbErrorCode.ItemNotFound then
        "Item not found."
      else if response.err_code = some DbErrorCode.DuplicateItemExists then
        "Duplicate item already exists."
      else if response.err_code = some DbErrorCode.QuotaExceeded then
        "Quote has been exceeded."
      else if response.err_code = some DbErrorCode.MaximumSizeExceeded then
        "The maximum size has been exceeded."
      else if response.err_code = some DbErrorCode.ItemTooLarge then
        "Item is too large."
      else if response.err_code = some DbErrorCode.ItemIsExpired then
        "Item is expired."
      else if response.err_code = some DbErrorCode.ItemAlreadyProcessed then
        "Item has already been processed."
      else if response.err_code = some DbErrorCode.InvalidFieldValue then
        "Invalid field value."
      else if response.err_code = some DbErrorCode.NotAuthorized then
        "Not authorized"
      else
        "An unexpected error occurred (Error Code: " ++
          jsShow response.err_code ++ ")." := rfl

/-! ### Claim theorems -/

/-- C1: whenever the transport call succeeds (`error` is null) but the
business-outcome row (first row of the first result set) signals a
non-success code — one of the defined error-kind values — `callChangeProc`
rejects with the `DbError` classified from that row by `createDbError`,
and the promise is never also resolved with a change row (a promise
settles once, so there is no mixed success). -/
theorem C1_changeProc_rejects_business_failure
    (results : List (List Row)) (row0 : Row) (rest : List Row) (c : String)
    (h0 : results[0]? = some (row0 :: rest))
    (hc : row0.err_code = some c)
    (_hkind : c ∈ dbErrorKindValues) :
    callChangeProcCb none results =
      .rejected (.dbError (createDbError row0)) ∧
    ∀ v, callChangeProcCb none results ≠ .resolved v := by
  have hne : row0.err_code ≠ DbErrorCode.NoError := by
    rw [hc, noError_eq_none]
    exact Option.some_ne_none c
  have hmain : callChangeProcCb none results =
      .rejected (.dbError (createDbError row0)) := by
    simp only [callChangeProcCb, h0, List.getElem?_cons_zero, if_pos hne]
  exact ⟨hmain, fun v hv => by rw [hmain] at hv; cases hv⟩

/-- C1 witness: a concrete two-result-set response whose outcome row
carries `err_code = "NOT_AUTHORIZED"` is rejected with the classified
`DbError` even though a change row is present in the second result set. -/
theorem C1_changeProc_rejects_business_failure_witness :
    callChangeProcCb none
        [[{ err_code := some "NOT_AUTHORIZED", err_context := some "ctx" }],
         [{ payload := "row" }]] =
      .rejected (.dbError (createDbError
        { err_code := some "NOT_AUTHORIZED", err_context := some "ctx" })) :=
  (C1_changeProc_rejects_business_failure
    [[{ err_code := some "NOT_AUTHORIZED", err_context := some "ctx" }],
     [{ payload := "row" }]]
    { err_code := some "NOT_AUTHORIZED", err_context := some "ctx" }
    [] "NOT_AUTHORIZED" rfl rfl (by decide)).1

/-- C2 counterexample: on a well-formed two-result-set response the promise
resolves with the SECOND result set, not the first — the first result set
holds the outcome row, which differs from the data row. -/
theorem C2_counterexample :
    callSelectManyProcCb none
        [[{ payload := "outcome" }], [{ payload := "data" }]] =
      .resolved (some [{ payload := "data" }]) ∧
    callSelectManyProcCb none
        [[{ payload := "outcome" }], [{ payload := "data" }]] ≠
      .resolved (some [{ payload := "outcome" }]) := by
  constructor
  · rfl
  · decide

/-- C2 (amended): for every `callSelectManyProc` invocation whose first
result set's first row carries no `err_code` (the code's success
convention), the promise resolves with the SECOND result set — the data
sequence — and in particular resolves with the empty sequence, never an
error, when that set has zero rows. -/
theorem C2_amended_selectMany_resolves_second_set
    (results : List (List Row)) (row0 : Row) (rest : List Row)
    (data : List Row)
    (h0 : results[0]? = some (row0 :: rest))
    (hok : row0.err_code = none)
    (h1 : results[1]? = some data) :
    callSelectManyProcCb none results = .resolved (some data) := by
  simp only [callSelectManyProcCb, h0, List.getElem?_cons_zero, hok,
    noError_eq_none, ne_eq, not_true_eq_false, if_false, h1]

/-- C2 witness: a procedure response whose data result set is empty
resolves with the empty sequence. -/
theorem C2_amended_selectMany_resolves_second_set_witness :
    callSelectManyProcCb none [[{ payload := "outcome" }], []] =
      .resolved (some []) :=
  C2_amended_selectMany_resolves_second_set
    [[{ payload := "outcome" }], []] { payload := "outcome" } [] [] rfl rfl rfl

/-- C3 counterexample: a transport failure is rejected with the RAW driver
error object, not a classified `DbError` — the rejection value of the
concrete failing call is the driver error itself and is not a
`DbError`-carrying rejection. -/
theorem C3_counterexample :
    callSelectManyProcCb (some { message := "connect ECONNREFUSED" }) [] =
      .rejected (.driverError { message := "connect ECONNREFUSED" }) ∧
    isDbErrorReject
      (callSelectManyProcCb (some { message := "connect ECONNREFUSED" }) [])
      = false :=
  ⟨rfl, rfl⟩

/-- C3 (amended): transport/driver failures are rejected with the raw
driver error object passed through unclassified by all three projectors,
while business-outcome rows are converted by `createDbError`, which
carries the row's raw `err_code` through unchanged (so the resulting kind
is one of the ten defined kinds only when the row's code already is). -/
theorem C3_amended_transport_errors_pass_raw :
    (∀ (e : MysqlErr) (results : List (List Row)),
      callSelectManyProcCb (some e) results = .rejected (.driverError e) ∧
      callSelectOneProcCb (some e) results = .rejected (.driverError e) ∧
      callChangeProcCb (some e) results = .rejected (.driverError e)) ∧
    (∀ response : Row, (createDbError response).errorCode = response.err_code) :=
  ⟨fun _ _ => ⟨rfl, rfl, rfl⟩, fun _ => rfl⟩

/-- C4: the `DbErrorCode` enum has no `NoError` member, so the success
check compares `err_code` against `undefined`; consequently, in all three
projectors, every invocation whose first result set's first row carries
ANY defined `err_code` value — a success-denoting one included — is
rejected with the `DbError` built from that row by `createDbError`. -/
theorem C4_noError_undefined_rejects_any_defined_code :
    DbErrorCode.NoError = none ∧
    ∀ (results : List (List Row)) (row0 : Row) (rest : List Row) (c : String),
      results[0]? = some (row0 :: rest) →
      row0.err_code = some c →
      callSelectManyProcCb none results =
          .rejected (.dbError (createDbError row0)) ∧
      callSelectOneProcCb none results =
          .rejected (.dbError (createDbError row0)) ∧
      callChangeProcCb none results =
          .rejected (.dbError (createDbError row0)) := by
  refine ⟨noError_eq_none, ?_⟩
  intro results row0 rest c h0 hc
  have hne : row0.err_code ≠ DbErrorCode.NoError := by
    rw [hc, noError_eq_none]
    exact Option.some_ne_none c
  refine ⟨?_, ?_, ?_⟩
  · simp only [callSelectManyProcCb, h0, List.getElem?_cons_zero, if_pos hne]
  · simp only [callSelectOneProcCb, h0, List.getElem?_cons_zero, if_pos hne]
  · simp only [callChangeProcCb, h0, List.getElem?_cons_zero, if_pos hne]

/-- C4 witness: a row whose `err_code` is the success-denoting string
`"NO_ERROR"` is still rejected by all three projectors, because the
comparison is against `undefined`. -/
theorem C4_noError_undefined_rejects_any_defined_code_witness :
    callSelectManyProcCb none [[{ err_code := some "NO_ERROR" }], []] =
        .rejected (.dbError (createDbError { err_code := some "NO_ERROR" })) ∧
    callSelectOneProcCb none [[{ err_code := some "NO_ERROR" }], []] =
        .rejected (.dbError (createDbError { err_code := some "NO_ERROR" })) ∧
    callChangeProcCb none [[{ err_code := some "NO_ERROR" }], []] =
        .rejected (.dbError (createDbError { err_code := some "NO_ERROR" })) :=
  C4_noError_undefined_rejects_any_defined_code.2
    [[{ err_code := some "NO_ERROR" }], []]
    { err_code := some "NO_ERROR" } [] "NO_ERROR" rfl rfl

/-- C5 counterexample: an invocation of `callSelectOneProc` whose inspected
data result set (the second) is empty but whose outcome row carries a
defined `err_code` is rejected with the error classified from that row —
kind `NOT_AUTHORIZED`, message `"Not authorized"` — not with the
ItemNotFound error. -/
theorem C5_counterexample :
    callSelectOneProcCb none [[{ err_code := some "NOT_AUTHORIZED" }], []] =
      .rejected (.dbError (createDbError { err_code := some "NOT_AUTHORIZED" })) ∧
    createDbError { err_code := some "NOT_AUTHORIZED" } ≠ itemNotFoundError := by
  exact ⟨rfl, by decide⟩

/-- C5 (amended): for every `callSelectOneProc` invocation whose outcome
row carries no `err_code` and whose inspected data result set (the second)
is empty, the promise is rejected with a `DbError` of kind `ItemNotFound`,
message exactly `"Item not found."` and no context. -/
theorem C5_amended_selectOne_empty_itemNotFound
    (results : List (List Row)) (row0 : Row) (rest : List Row)
    (h0 : results[0]? = some (row0 :: rest))
    (hok : row0.err_code = none)
    (h1 : results[1]? = some []) :
    callSelectOneProcCb none results = .rejected (.dbError itemNotFoundError) ∧
    itemNotFoundError.errorCode = some DbErrorCode.ItemNotFound ∧
    itemNotFoundError.message = "Item not found." ∧
    itemNotFoundError.context = none := by
  refine ⟨?_, rfl, rfl, rfl⟩
  simp only [callSelectOneProcCb, h0, List.getElem?_cons_zero, hok,
    noError_eq_none, ne_eq, not_true_eq_false, if_false, h1]

/-- C5 witness: the concrete empty-data success response is rejected with
the ItemNotFound error. -/
theorem C5_amended_selectOne_empty_itemNotFound_witness :
    callSelectOneProcCb none [[{ payload := "outcome" }], []] =
        .rejected (.dbError itemNotFoundError) ∧
    itemNotFoundError.errorCode = some DbErrorCode.ItemNotFound ∧
    itemNotFoundError.message = "Item not found." ∧
    itemNotFoundError.context = none :=
  C5_amended_selectOne_empty_itemNotFound
    [[{ payload := "outcome" }], []] { payload := "outcome" } [] rfl rfl rfl

/-- C6 counterexample: an invocation of `callSelectOneProc` whose inspected
data result set contains a record but whose outcome row carries a defined
`err_code` does NOT resolve with that first record — it is rejected with
the error classified from the outcome row. -/
theorem C6_counterexample :
    callSelectOneProcCb none
        [[{ err_code := some "NOT_AUTHORIZED" }], [{ payload := "data" }]] ≠
      .resolved { payload := "data" } ∧
    callSelectOneProcCb none
        [[{ err_code := some "NOT_AUTHORIZED" }], [{ payload := "data" }]] =
      .rejected (.dbError (createDbError { err_code := some "NOT_AUTHORIZED" })) := by
  exact ⟨by decide, rfl⟩

/-- C6 (amended): for every `callSelectOneProc` invocation whose outcome
row carries no `err_code` and whose inspected data result set (the second)
contains one or more records, the promise resolves with exactly the first
record; the remaining records do not affect the result (the settlement
does not depend on them). -/
theorem C6_amended_selectOne_first_record
    (results : List (List Row)) (row0 : Row) (rest : List Row)
    (d : Row) (drest : List Row)
    (h0 : results[0]? = some (row0 :: rest))
    (hok : row0.err_code = none)
    (h1 : results[1]? = some (d :: drest)) :
    callSelectOneProcCb none results = .resolved d := by
  simp only [callSelectOneProcCb, h0, List.getElem?_cons_zero, hok,
    noError_eq_none, ne_eq, not_true_eq_false, if_false, h1]

/-- C6 witness: a data result set with two records resolves with the first
record, the second is discarded. -/
theorem C6_amended_selectOne_first_record_witness :
    callSelectOneProcCb none
        [[{ payload := "outcome" }],
         [{ payload := "first" }, { payload := "second" }]] =
      .resolved { payload := "first" } :=
  C6_amended_selectOne_first_record
    [[{ payload := "outcome" }],
     [{ payload := "first" }, { payload := "second" }]]
    { payload := "outcome" } [] { payload := "first" } [{ payload := "second" }]
    rfl rfl rfl

/-- C7: for every procedure name and parameter list of length N ≥ 0,
`invokeStoredProc` builds the statement `call <name>(...)` whose
placeholder text contains exactly N positional `?` placeholders (zero
parameters yields no placeholders), and the parameter values are passed
out-of-band from the statement text as the separate second argument to
`conn.query`, never concatenated into the text. -/
theorem C7_invokeStoredProc_placeholders :
    ∀ {α : Type} (procName : String) (parameters : List α),
      invokeStoredProc procName parameters =
        ("call " ++ procName ++ "(" ++ placeholders parameters.length ++ ")",
         parameters) ∧
      qCount (placeholders parameters.length) = parameters.length ∧
      placeholders 0 = "" := by
  intro α procName parameters
  exact ⟨rfl, qCount_placeholders parameters.length, rfl⟩

/-- C8: `convertBitFields` returns a copy of the record in which each
named field is replaced by a boolean that is true iff the value `1` occurs
anywhere in that field's sequence, every field not named is passed through
unchanged, and the call fails (a TypeError is raised) when a named field
is absent or not sequence-shaped. -/
theorem C8_convertBitFields_correct :
    (∀ (jsonObject : JsonObj) (bitFields : List String),
      (∀ f ∈ bitFields, ∃ xs, lookupField jsonObject f = some (JsonVal.arr xs)) →
      ∃ newObject, convertBitFields jsonObject bitFields = .ok newObject ∧
        (∀ k, k ∉ bitFields →
          lookupField newObject k = lookupField jsonObject k) ∧
        (∀ k xs, k ∈ bitFields →
          lookupField jsonObject k = some (JsonVal.arr xs) →
          lookupField newObject k = some (JsonVal.boolVal (xs.contains 1)))) ∧
    (∀ xs : List Int, xs.contains 1 = true ↔ 1 ∈ xs) ∧
    (∀ (jsonObject : JsonObj) (bitFields : List String) (f : String),
      f ∈ bitFields →
      (∀ xs, lookupField jsonObject f ≠ some (JsonVal.arr xs)) →
      ∃ msg, convertBitFields jsonObject bitFields = .error msg) := by
  refine ⟨?_, ?_, ?_⟩
  · intro jsonObject bitFields h
    exact convertBitFieldsAux_ok jsonObject bitFields h jsonObject
  · intro xs
    simp
  · intro jsonObject bitFields f hf hbad
    exact convertBitFieldsAux_err jsonObject bitFields jsonObject f hf hbad

/-- C8 witness: the spec's example record `{a: [0,1,0], b: 5}` with bit
field list `["a"]` converts successfully; `a` becomes the boolean for
`1 ∈ [0,1,0]` and `b` is passed through unchanged. -/
theorem C8_convertBitFields_correct_witness :
    ∃ newObject,
      convertBitFields
          [("a", JsonVal.arr [0, 1, 0]), ("b", JsonVal.num 5)] ["a"] =
        .ok newObject ∧
      (∀ k, k ∉ ["a"] →
        lookupField newObject k =
          lookupField [("a", JsonVal.arr [0, 1, 0]), ("b", JsonVal.num 5)] k) ∧
      (∀ k xs, k ∈ ["a"] →
        lookupField [("a", JsonVal.arr [0, 1, 0]), ("b", JsonVal.num 5)] k =
          some (JsonVal.arr xs) →
        lookupField newObject k = some (JsonVal.boolVal (xs.contains 1))) :=
  C8_convertBitFields_correct.1
    [("a", JsonVal.arr [0, 1, 0]), ("b", JsonVal.num 5)] ["a"]
    (by
      intro f hf
      rw [List.mem_singleton] at hf
      subst hf
      exact ⟨[0, 1, 0], rfl⟩)

/-- C9: in every call through `query`, `callSelectManyProc`,
`callSelectOneProc` and `callChangeProc` the connection is acquired once
and released exactly once, but the release (`disconnect`) happens
synchronously right after the query is issued, strictly BEFORE the query's
callback fires — the release is not bound to the call's full async
lifetime. -/
theorem C9_release_precedes_callback :
    (queryTrace.count DbEvent.disconnect = 1 ∧
     queryTrace.count DbEvent.connect = 1 ∧
     queryTrace.findIdx (· == DbEvent.disconnect) <
       queryTrace.findIdx (· == DbEvent.callbackFired)) ∧
    (callSelectManyProcTrace.count DbEvent.disconnect = 1 ∧
     callSelectManyProcTrace.count DbEvent.connect = 1 ∧
     callSelectManyProcTrace.findIdx (· == DbEvent.disconnect) <
       callSelectManyProcTrace.findIdx (· == DbEvent.callbackFired)) ∧
    (callSelectOneProcTrace.count DbEvent.disconnect = 1 ∧
     callSelectOneProcTrace.count DbEvent.connect = 1 ∧
     callSelectOneProcTrace.findIdx (· == DbEvent.disconnect) <
       callSelectOneProcTrace.findIdx (· == DbEvent.callbackFired)) ∧
    (callChangeProcTrace.count DbEvent.disconnect = 1 ∧
     callChangeProcTrace.count DbEvent.connect = 1 ∧
     callChangeProcTrace.findIdx (· == DbEvent.disconnect) <
       callChangeProcTrace.findIdx (· == DbEvent.callbackFired)) := by
  decide

/-- C10: every `DbError` constructed by the component carries a non-empty
message — `createDbError` produces a non-empty message for every outcome
row (unknown and `undefined` codes included, via the default branch), and
the not-found error of `callSelectOneProc` has the non-empty message
`"Item not found."`. -/
theorem C10_dbError_messages_nonempty :
    (∀ response : Row, (createDbError response).message ≠ "") ∧
    itemNotFoundError.message ≠ "" := by
  constructor
  · intro response
    rw [createDbError_message]
    repeat' split
    all_goals try decide
    apply append_left_ne_empty
    apply append_left_ne_empty
    decide
  · decide
